import Mathlib

/-!
Verification of the goji request-logging middleware
(`web/middleware/logger.go`).

The middleware is embedded shallowly:

* A log line is a list of segments; each segment is a piece of text
  optionally carrying a color annotation (the spec's data model treats
  terminal colors as annotations on substrings; the TTY escape mechanism
  is out of scope).
* The request is a snapshot of the fields the logger reads: method, URL,
  remote address, and the header mapping (canonical keys, each with an
  ordered list of values), exactly as Go's `http.Request` presents them.
* The inner handler is modelled by its effect on the status-observing
  response proxy; wall-clock time is modelled by an external clock
  stream read at the same program points where the Go code calls
  `time.Now()`.
* `loggerHandlerRun` mirrors the body of `loggerHandler` statement by
  statement, producing the trace of observable events (emitted log
  lines, clock reads, the handler invocation, and any status write the
  middleware itself performs) together with the final proxy state.
-/

namespace GojiLogger

/-- The color constants used by the logger (`bBlack`, `bMagenta`, `nBlue`,
`bBlue`, `bGreen`, `bCyan`, `bYellow`, `bRed`, `nGreen`, `nYellow`, `nRed`
in the Go source). Their escape sequences are irrelevant here; only their
identity matters. -/
inductive Color where
  | bBlack
  | bBlue
  | bGreen
  | bCyan
  | bYellow
  | bRed
  | bMagenta
  | nBlue
  | nGreen
  | nYellow
  | nRed
deriving DecidableEq, Repr

/-- One segment of a log line: a piece of text, optionally carrying a
color annotation. -/
structure Seg where
  color : Option Color
  text : String
deriving DecidableEq, Repr

/-- Modelled from the spec: `cW` (defined in this package but outside the
given source file) writes a color-annotated substring into the line
buffer; per the spec's data model a line's "substrings may carry color
annotations for terminal rendering", and TTY color detection is out of
scope. -/
def cW (c : Color) (s : String) : Seg := { color := some c, text := s }

/-- `buf.WriteString(s)`: an unannotated segment. -/
def ws (s : String) : Seg := { color := none, text := s }

/-- The rendered text of a line: the concatenation of its segments'
texts, ignoring color annotations. -/
def lineText : List Seg → String
  | [] => ""
  | s :: rest => s.text ++ lineText rest

/-- The request snapshot read by the logger: method, URL (already
rendered to a string, as `r.URL.String()` yields), remote address, and
the header mapping. Keys are stored in Go's canonical MIME form (as
`http.Request.Header` stores them) and each key is distinct, carrying its
ordered value list. -/
structure HttpRequest where
  method : String
  url : String
  remoteAddr : String
  headers : List (String × List String)
deriving DecidableEq, Repr

/-- `r.Header.Get(key)`: the first value stored under the (canonical)
key, or `""` when the key is absent or has no values — the semantics of
Go's `textproto.MIMEHeader.Get`. -/
def headerGet (hs : List (String × List String)) (k : String) : String :=
  match hs.find? (fun p => p.fst == k) with
  | some p =>
    match p.snd with
    | [] => ""
    | v :: _ => v
  | none => ""

/-- Escaping of one character under Go's `%q` verb, for the printable
characters relevant here: backslash and double quote are escaped, the
rest pass through. -/
def escChar (c : Char) : String :=
  if c = '\\' then "\\\\"
  else if c = '"' then "\\\""
  else String.singleton c

/-- `fmt`'s `%q` applied to a string: the text wrapped in double quotes
with the quote-relevant characters escaped. -/
def goQuote (s : String) : String :=
  "\"" ++ String.join (s.data.map escChar) ++ "\""

/-- The request-ID bracket segment: the Go source guards every line with
`if reqID != "" { cW(&buf, bBlack, "[%s] ", reqID) }`. -/
def bracketTag (reqID : String) : List Seg :=
  if reqID = "" then [] else [cW Color.bBlack ("[" ++ reqID ++ "] ")]

/-- The body of the start line, after the optional bracket segment
(`printStart` minus the reqID guard): `Started `, the colorized method,
the colorized quoted URL, `from `, and the originating address
(`X-Forwarded-For` when non-empty via `Header.Get`, else
`r.RemoteAddr`). -/
def startBody (r : HttpRequest) : List Seg :=
  [ws "Started ",
   cW Color.bMagenta (r.method ++ " "),
   cW Color.nBlue (goQuote r.url ++ " "),
   ws "from ",
   ws (if headerGet r.headers "X-Forwarded-For" ≠ "" then
         headerGet r.headers "X-Forwarded-For"
       else r.remoteAddr)]

/-- `printStart(reqID, r)` as one line of segments. -/
def printStart (reqID : String) (r : HttpRequest) : List Seg :=
  bracketTag reqID ++ startBody r

/-- The inner loop of `printHeaders`: each value is written, followed by
`", "` whenever a further value follows (`if ks+1 < len(v)`). -/
def valueSegs : List String → List Seg
  | [] => []
  | [v] => [ws v]
  | v :: w :: rest => ws v :: ws ", " :: valueSegs (w :: rest)

/-- One header line: the optional bracket segment, `KEY: `, then the
values joined by `", "`. -/
def headerLine (reqID : String) (kv : String × List String) : List Seg :=
  bracketTag reqID ++ (ws (kv.fst ++ ": ") :: valueSegs kv.snd)

/-- `printHeaders(reqID, r)`: one line per header entry. Go iterates the
header map in unspecified order; the order of `r.headers` stands for one
such iteration order. -/
def printHeaders (reqID : String) (r : HttpRequest) : List (List Seg) :=
  r.headers.map (headerLine reqID)

/-- `time.Millisecond` in nanoseconds. -/
def millisecond : Int := 1000000

/-- `time.Second` in nanoseconds. -/
def second : Int := 1000000000

/-- Go's `%03d` on a status code: the decimal rendering left-padded with
zeros to a minimum width of 3. -/
def pad3 (n : Nat) : String :=
  let s := toString n
  if 3 ≤ s.length then s else String.mk (List.replicate (3 - s.length) '0') ++ s

/-- Modelled from the spec: the duration is rendered "in the host's
natural human-readable duration format" (Go's `time.Duration.String`,
outside the given source); no claim depends on this text, so the decimal
nanosecond count stands in for it. -/
def durText (dt : Int) : String := toString dt

/-- The body of the end line (`printEnd` minus the reqID guard):
`Returning `, the zero-padded status colorized by the five-way status
if-chain, ` in `, and the duration colorized by the three-way duration
if-chain — both chains transcribed branch by branch from the source. -/
def endBody (status : Nat) (dt : Int) : List Seg :=
  [ws "Returning ",
   (if status < 200 then cW Color.bBlue (pad3 status)
    else if status < 300 then cW Color.bGreen (pad3 status)
    else if status < 400 then cW Color.bCyan (pad3 status)
    else if status < 500 then cW Color.bYellow (pad3 status)
    else cW Color.bRed (pad3 status)),
   ws " in ",
   (if dt < 500 * millisecond then cW Color.nGreen (durText dt)
    else if dt < 5 * second then cW Color.nYellow (durText dt)
    else cW Color.nRed (durText dt))]

/-- `printEnd(reqID, w, dt)` as one line of segments, taking the status
already read from the writer proxy. -/
def printEnd (reqID : String) (status : Nat) (dt : Int) : List Seg :=
  bracketTag reqID ++ endBody status dt

/-- Modelled from the spec: `mutil.WrapWriter`'s proxy (outside the given
source) "records the first status code explicitly set on it, defaulting
to 0 until then"; `status = 0` means no status has been set. -/
structure WriterProxy where
  status : Nat
deriving DecidableEq, Repr

/-- Modelled from the spec: `WriteHeader` on the proxy records the code
when none has been recorded yet, and otherwise leaves the recorded
status unchanged (only the first explicitly set status is observable). -/
def WriterProxy.writeHeader (w : WriterProxy) (code : Nat) : WriterProxy :=
  if w.status = 0 then { status := code } else w

/-- The observable events of one run of the wrapped handler: an emitted
log line, a read of the wall clock (`time.Now()`, numbered in program
order), the synchronous invocation of the inner handler, and a status
write performed by the middleware itself. -/
inductive Ev where
  | log (l : List Seg)
  | clockRead (i : Nat)
  | invoke
  | writeHeader (code : Nat)
deriving DecidableEq, Repr

/-- The body of `loggerHandler`, statement by statement: print the start
line; in verbose mode print the header lines; wrap the writer; read the
clock (`t1`); invoke the inner handler (modelled by its effect `hEff` on
the proxy); if no status was set, write 200; read the clock (`t2`);
print the end line with the proxy's status and `t2 - t1`. Returns the
event trace and the final proxy. `clock i` is the value returned by the
i-th `time.Now()` call. -/
def loggerHandlerRun (reqID : String) (verbose : Bool)
    (hEff : WriterProxy → WriterProxy) (r : HttpRequest)
    (clock : Nat → Int) : List Ev × WriterProxy :=
  let lw : WriterProxy := { status := 0 }
  let lw1 := hEff lw
  let lw2 := if lw1.status = 0 then lw1.writeHeader 200 else lw1
  ([Ev.log (printStart reqID r)]
    ++ (if verbose then (printHeaders reqID r).map Ev.log else [])
    ++ [Ev.clockRead 0, Ev.invoke]
    ++ (if lw1.status = 0 then [Ev.writeHeader 200] else [])
    ++ [Ev.clockRead 1,
        Ev.log (printEnd reqID lw2.status (clock 1 - clock 0))],
   lw2)

/-- The lines a trace emits, in order. -/
def emittedLines (evs : List Ev) : List (List Seg) :=
  evs.filterMap (fun e =>
    match e with
    | Ev.log l => some l
    | _ => none)

/-- Whether an event is a status write performed by the middleware. -/
def isMwWrite : Ev → Bool
  | Ev.writeHeader _ => true
  | _ => false

/-- The spec's wording for the header-value rendering: "that key's
values joined by `\x22, \x22`" — stated independently of the source's
indexed loop, to be compared with `valueSegs`. -/
def joinComma : List String → String
  | [] => ""
  | [v] => v
  | v :: w :: rest => v ++ ", " ++ joinComma (w :: rest)

/-- The five-bucket status classification the spec describes, stated
independently of the source's if-chain. -/
def statusBucketColor (status : Nat) : Color :=
  if status < 200 then Color.bBlue
  else if status < 300 then Color.bGreen
  else if status < 400 then Color.bCyan
  else if status < 500 then Color.bYellow
  else Color.bRed

/-- The three-bucket latency classification the spec describes, stated
independently of the source's if-chain. -/
def durBucketColor (dt : Int) : Color :=
  if dt < 500 * millisecond then Color.nGreen
  else if dt < 5 * second then Color.nYellow
  else Color.nRed

/-- A sample request carrying an `X-Forwarded-For` header, used to
instantiate the theorems at concrete inputs. -/
def sampleReq : HttpRequest :=
  { method := "GET"
    url := "/widgets?id=1"
    remoteAddr := "192.0.2.1:5555"
    headers := [("X-Forwarded-For", ["10.0.0.5"]),
                ("Accept", ["text/html", "text/plain"])] }

/-- A sample request without an `X-Forwarded-For` header. -/
def sampleReqNoFwd : HttpRequest :=
  { method := "POST"
    url := "/login"
    remoteAddr := "203.0.113.9:4242"
    headers := [("Accept", ["text/html"])] }

end GojiLogger

namespace GojiLogger

/-- Concatenation distributes over the rendered text of a line. -/
theorem lineText_append (a b : List Seg) :
    lineText (a ++ b) = lineText a ++ lineText b := by
  induction a with
  | nil => simp [lineText]
  | cons s rest ih => simp [lineText, ih, String.append_assoc]

/-- Extracting the emitted lines from a trace of pure log events
recovers the lines. -/
theorem emittedLines_map_log {α : Type} (f : α → List Seg) (xs : List α) :
    List.filterMap
      ((fun e =>
        match e with
        | Ev.log l => some l
        | _ => none) ∘ Ev.log ∘ f) xs = xs.map f := by
  induction xs with
  | nil => rfl
  | cons a t ih =>
    simp only [List.filterMap_cons, List.map_cons, Function.comp]
    rw [ih]

/-- One run of the wrapped handler emits exactly the start line, the
header lines when verbose, and the end line carrying the final status
and the difference of the two clock readings, in that order. -/
theorem emittedLines_run (reqID : String) (verbose : Bool)
    (hEff : WriterProxy → WriterProxy) (r : HttpRequest)
    (clock : Nat → Int) :
    emittedLines (loggerHandlerRun reqID verbose hEff r clock).fst =
      printStart reqID r ::
        ((if verbose then printHeaders reqID r else []) ++
          [printEnd reqID (loggerHandlerRun reqID verbose hEff r clock).snd.status
            (clock 1 - clock 0)]) := by
  simp only [loggerHandlerRun, emittedLines]
  by_cases h : (hEff { status := 0 }).status = 0 <;>
    cases verbose <;>
      simp [h, List.filterMap_append, emittedLines_map_log, printHeaders]

/-- A line guarded by a non-empty request ID renders as the bracketed ID
followed by the body's text. -/
theorem lineText_bracketTag (reqID : String) (h : reqID ≠ "") (body : List Seg) :
    lineText (bracketTag reqID ++ body) = "[" ++ reqID ++ "] " ++ lineText body := by
  simp [bracketTag, h, lineText, cW, String.append_assoc]

/-- Claim C1: for every request handled with a non-empty request ID, every
log line the middleware emits for that request — the start line, each
header line in verbose mode, and the end line — begins with the bracketed
request-ID prefix, so all lines of one request carry the same prefix. -/
theorem claim_C1 (reqID : String) (verbose : Bool)
    (hEff : WriterProxy → WriterProxy) (r : HttpRequest) (clock : Nat → Int)
    (h : reqID ≠ "") :
    ∀ l ∈ emittedLines (loggerHandlerRun reqID verbose hEff r clock).fst,
      ∃ rest, lineText l = "[" ++ reqID ++ "] " ++ rest := by
  intro l hl
  rw [emittedLines_run] at hl
  simp only [List.mem_cons, List.mem_append, List.mem_singleton] at hl
  rcases hl with h1 | hl
  · exact ⟨lineText (startBody r), by rw [h1, printStart, lineText_bracketTag reqID h]⟩
  rcases hl with h2 | h3
  · cases verbose with
    | false => exact absurd h2 (by simp)
    | true =>
      simp only [if_pos, printHeaders, List.mem_map] at h2
      obtain ⟨kv, _, hkv⟩ := h2
      exact ⟨lineText (ws (kv.fst ++ ": ") :: valueSegs kv.snd),
        by rw [← hkv, headerLine, lineText_bracketTag reqID h]⟩
  · rcases h3 with h3 | h3
    · exact ⟨lineText (endBody _ _), by rw [h3, printEnd, lineText_bracketTag reqID h]⟩
    · exact absurd h3 (by simp)

/-- Claim C1 witness: with request ID `abc123`, the start line of a
concrete run begins with the `[abc123] ` prefix. -/
theorem claim_C1_witness :
    ("abc123" : String) ≠ "" ∧
    (∃ rest, lineText (printStart "abc123" sampleReq) =
      "[" ++ "abc123" ++ "] " ++ rest) :=
  ⟨by decide,
   claim_C1 "abc123" true (fun w => w) sampleReq (fun i => (i : Int))
     (by decide) (printStart "abc123" sampleReq)
     (by rw [emittedLines_run]; exact List.mem_cons_self _ _)⟩

/-- Claim C2: for a request whose request ID is empty, every emitted line
(start, header in verbose mode, end) is exactly its bracket-free body —
the bracketed prefix segment is omitted entirely, never rendered as a
blank or placeholder, and each line starts directly with its body text. -/
theorem claim_C2 (verbose : Bool) (hEff : WriterProxy → WriterProxy)
    (r : HttpRequest) (clock : Nat → Int) (reqID : String) (h : reqID = "") :
    emittedLines (loggerHandlerRun reqID verbose hEff r clock).fst =
      startBody r ::
        ((if verbose then
            r.headers.map (fun kv => ws (kv.fst ++ ": ") :: valueSegs kv.snd)
          else []) ++
          [endBody (loggerHandlerRun reqID verbose hEff r clock).snd.status
            (clock 1 - clock 0)]) ∧
    (startBody r).head? = some (ws "Started ") ∧
    (∀ s dt, (endBody s dt).head? = some (ws "Returning ")) := by
  subst h
  refine ⟨?_, rfl, fun s dt => rfl⟩
  rw [emittedLines_run]
  cases verbose with
  | false => simp [printStart, printEnd, bracketTag]
  | true =>
    simp only [printStart, printEnd, bracketTag, if_pos, printHeaders]
    simp only [List.cons_append, List.nil_append, List.cons.injEq, true_and]
    congr 1

/-- Claim C2 witness: a concrete run with empty request ID emits exactly
the bracket-free start and end lines. -/
theorem claim_C2_witness :
    ("" : String) = "" ∧
    emittedLines (loggerHandlerRun "" false (fun w => w) sampleReq
        (fun _ => (0 : Int))).fst =
      [startBody sampleReq, endBody 200 0] :=
  ⟨rfl,
   ((claim_C2 false (fun w => w) sampleReq (fun _ => (0 : Int)) "" rfl).1).trans
     (by decide)⟩

/-- Claim C3: when the inner handler never explicitly sets a status (the
observed status is still 0 after it returns), the middleware itself
writes status 200, the final observed status is 200, and the end line
reports status 200 (rendered `200`, in the success color). -/
theorem claim_C3 (reqID : String) (verbose : Bool)
    (hEff : WriterProxy → WriterProxy) (r : HttpRequest) (clock : Nat → Int)
    (h0 : (hEff { status := 0 }).status = 0) :
    (loggerHandlerRun reqID verbose hEff r clock).snd.status = 200 ∧
    Ev.writeHeader 200 ∈ (loggerHandlerRun reqID verbose hEff r clock).fst ∧
    (emittedLines (loggerHandlerRun reqID verbose hEff r clock).fst).getLast? =
      some (printEnd reqID 200 (clock 1 - clock 0)) ∧
    (∀ dt, ∃ dseg, endBody 200 dt =
      [ws "Returning ", cW Color.bGreen "200", ws " in ", dseg]) := by
  have hst : (loggerHandlerRun reqID verbose hEff r clock).snd.status = 200 := by
    simp [loggerHandlerRun, h0, WriterProxy.writeHeader]
  refine ⟨hst, ?_, ?_, ?_⟩
  · simp [loggerHandlerRun, h0]
  · rw [emittedLines_run, hst]
    rw [show printStart reqID r ::
          ((if verbose then printHeaders reqID r else []) ++
            [printEnd reqID 200 (clock 1 - clock 0)]) =
        (printStart reqID r ::
          (if verbose then printHeaders reqID r else [])) ++
          [printEnd reqID 200 (clock 1 - clock 0)] by simp]
    exact List.getLast?_concat _
  · intro dt
    have h200 : pad3 200 = "200" := by decide
    exact ⟨if dt < 500 * millisecond then cW Color.nGreen (durText dt)
      else if dt < 5 * second then cW Color.nYellow (durText dt)
      else cW Color.nRed (durText dt), by simp [endBody, h200]⟩

/-- Claim C3 witness: a concrete run whose handler leaves the status at 0
ends with observed status 200 and an end line reporting 200. -/
theorem claim_C3_witness :
    ((fun w : WriterProxy => w) { status := 0 }).status = 0 ∧
    (loggerHandlerRun "req1" false (fun w => w) sampleReq
      (fun _ => (0 : Int))).snd.status = 200 ∧
    (emittedLines (loggerHandlerRun "req1" false (fun w => w) sampleReq
        (fun _ => (0 : Int))).fst).getLast? =
      some (printEnd "req1" 200 0) := by
  have h := claim_C3 "req1" false (fun w => w) sampleReq (fun _ => (0 : Int)) rfl
  exact ⟨rfl, h.1, h.2.2.1.trans (by decide)⟩

end GojiLogger

namespace GojiLogger

/-- The status segment of the end line's body is the zero-padded status
in the color chosen by the five-way bucket classification. -/
theorem endBody_statusSeg (status : Nat) (dt : Int) :
    ∃ dseg, endBody status dt =
      [ws "Returning ", cW (statusBucketColor status) (pad3 status),
       ws " in ", dseg] := by
  refine ⟨if dt < 500 * millisecond then cW Color.nGreen (durText dt)
    else if dt < 5 * second then cW Color.nYellow (durText dt)
    else cW Color.nRed (durText dt), ?_⟩
  simp only [endBody, statusBucketColor]
  split_ifs <;> rfl

set_option maxRecDepth 10000 in
/-- Every status below 1000 renders as exactly three digits under the
`%03d` padding. -/
theorem pad3_length (s : Nat) (h : s < 1000) : (pad3 s).length = 3 := by
  revert h
  revert s
  decide

/-- Claim C4: when the inner handler explicitly sets a (non-zero) status
`S`, the final observed status is `S`, the end line reports exactly `S`
zero-padded to three digits, and its color is determined by exactly one
of the five buckets: below 200, 200–299, 300–399, 400–499, and 500 or
above — with the five bucket colors pairwise distinct. -/
theorem claim_C4 (reqID : String) (verbose : Bool)
    (hEff : WriterProxy → WriterProxy) (r : HttpRequest) (clock : Nat → Int)
    (S : Nat) (hS : (hEff { status := 0 }).status = S) (h0 : S ≠ 0) :
    (loggerHandlerRun reqID verbose hEff r clock).snd.status = S ∧
    (emittedLines (loggerHandlerRun reqID verbose hEff r clock).fst).getLast? =
      some (printEnd reqID S (clock 1 - clock 0)) ∧
    (∀ dt, ∃ dseg, endBody S dt =
      [ws "Returning ", cW (statusBucketColor S) (pad3 S), ws " in ", dseg]) ∧
    (S < 200 → statusBucketColor S = Color.bBlue) ∧
    (200 ≤ S → S < 300 → statusBucketColor S = Color.bGreen) ∧
    (300 ≤ S → S < 400 → statusBucketColor S = Color.bCyan) ∧
    (400 ≤ S → S < 500 → statusBucketColor S = Color.bYellow) ∧
    (500 ≤ S → statusBucketColor S = Color.bRed) ∧
    List.Pairwise (fun a b => a ≠ b)
      [Color.bBlue, Color.bGreen, Color.bCyan, Color.bYellow, Color.bRed] ∧
    (S < 1000 → (pad3 S).length = 3) := by
  have hst : (loggerHandlerRun reqID verbose hEff r clock).snd.status = S := by
    simp [loggerHandlerRun, hS, h0]
  refine ⟨hst, ?_, fun dt => endBody_statusSeg S dt, ?_, ?_, ?_, ?_, ?_,
    by decide, fun h => pad3_length S h⟩
  · rw [emittedLines_run, hst]
    rw [show printStart reqID r ::
          ((if verbose then printHeaders reqID r else []) ++
            [printEnd reqID S (clock 1 - clock 0)]) =
        (printStart reqID r ::
          (if verbose then printHeaders reqID r else [])) ++
          [printEnd reqID S (clock 1 - clock 0)] by simp]
    exact List.getLast?_concat _
  · intro h1
    simp only [statusBucketColor]
    split_ifs <;> first | rfl | omega
  · intro h1 h2
    simp only [statusBucketColor]
    split_ifs <;> first | rfl | omega
  · intro h1 h2
    simp only [statusBucketColor]
    split_ifs <;> first | rfl | omega
  · intro h1 h2
    simp only [statusBucketColor]
    split_ifs <;> first | rfl | omega
  · intro h1
    simp only [statusBucketColor]
    split_ifs <;> first | rfl | omega

/-- Claim C4 witness: a handler that sets status 404 yields final status
404, bucket color `bYellow`, and a three-character rendering. -/
theorem claim_C4_witness :
    ((fun w : WriterProxy => w.writeHeader 404) { status := 0 }).status = 404 ∧
    (404 : Nat) ≠ 0 ∧
    (loggerHandlerRun "req2" false (fun w => w.writeHeader 404) sampleReq
      (fun _ => (0 : Int))).snd.status = 404 ∧
    statusBucketColor 404 = Color.bYellow ∧
    (pad3 404).length = 3 ∧ pad3 404 = "404" ∧ pad3 7 = "007" := by
  have h := claim_C4 "req2" false (fun w => w.writeHeader 404) sampleReq
    (fun _ => (0 : Int)) 404 (by decide) (by decide)
  exact ⟨by decide, by decide, h.1,
    h.2.2.2.2.2.2.1 (by decide) (by decide),
    h.2.2.2.2.2.2.2.2.2 (by decide), by decide, by decide⟩

/-- Claim C5: the start line's final (`from`) segment is the value of the
`X-Forwarded-For` header verbatim when that value (as `Header.Get`
returns it) is non-empty, and the raw remote connection address
otherwise. -/
theorem claim_C5 (reqID : String) (r : HttpRequest) :
    (headerGet r.headers "X-Forwarded-For" ≠ "" →
      (printStart reqID r).getLast? =
        some (ws (headerGet r.headers "X-Forwarded-For"))) ∧
    (headerGet r.headers "X-Forwarded-For" = "" →
      (printStart reqID r).getLast? = some (ws r.remoteAddr)) := by
  have key : (printStart reqID r).getLast? =
      some (ws (if headerGet r.headers "X-Forwarded-For" ≠ "" then
        headerGet r.headers "X-Forwarded-For" else r.remoteAddr)) := by
    simp only [printStart, bracketTag, startBody]
    split_ifs <;> rfl
  constructor
  · intro h
    rw [key, if_pos h]
  · intro h
    rw [key, if_neg (by simp [h])]

/-- Claim C5 witness: with the forwarded header present the `from`
segment is its value; without it, the raw remote address. -/
theorem claim_C5_witness :
    headerGet sampleReq.headers "X-Forwarded-For" ≠ "" ∧
    (printStart "abc123" sampleReq).getLast? = some (ws "10.0.0.5") ∧
    headerGet sampleReqNoFwd.headers "X-Forwarded-For" = "" ∧
    (printStart "" sampleReqNoFwd).getLast? = some (ws "203.0.113.9:4242") := by
  refine ⟨by decide, ?_, by decide, ?_⟩
  · exact ((claim_C5 "abc123" sampleReq).1 (by decide)).trans (by decide)
  · exact ((claim_C5 "" sampleReqNoFwd).2 (by decide)).trans (by decide)

end GojiLogger

namespace GojiLogger

/-- The rendered text of the header-value segments is the values joined
by `", "`. -/
theorem lineText_valueSegs : ∀ v : List String,
    lineText (valueSegs v) = joinComma v
  | [] => rfl
  | [v] => by simp [valueSegs, joinComma, lineText, ws]
  | v :: w :: rest => by
    simp only [valueSegs, joinComma, lineText, ws]
    rw [lineText_valueSegs (w :: rest)]
    simp [String.append_assoc]

/-- Claim C6: in verbose mode the middleware emits exactly one header
line per header entry on the request, in iteration order, each rendering
as the key followed by all of that key's values joined by `", "` in their
original within-key order; in non-verbose mode it emits no header lines
at all. -/
theorem claim_C6 (reqID : String) (hEff : WriterProxy → WriterProxy)
    (r : HttpRequest) (clock : Nat → Int) :
    emittedLines (loggerHandlerRun reqID true hEff r clock).fst =
      printStart reqID r ::
        (r.headers.map (headerLine reqID) ++
          [printEnd reqID (loggerHandlerRun reqID true hEff r clock).snd.status
            (clock 1 - clock 0)]) ∧
    (∀ kv : String × List String,
      lineText (headerLine reqID kv) =
        lineText (bracketTag reqID) ++ (kv.fst ++ ": " ++ joinComma kv.snd)) ∧
    emittedLines (loggerHandlerRun reqID false hEff r clock).fst =
      [printStart reqID r,
       printEnd reqID (loggerHandlerRun reqID false hEff r clock).snd.status
         (clock 1 - clock 0)] := by
  refine ⟨?_, ?_, ?_⟩
  · rw [emittedLines_run]
    simp [printHeaders]
  · intro kv
    simp [headerLine, lineText_append, lineText, ws, lineText_valueSegs,
      String.append_assoc]
  · rw [emittedLines_run]
    simp

/-- Claim C7: the duration the end line reports is the difference of the
two clock readings the middleware takes, hence non-negative under a
monotone wall clock; the first reading is taken right before the handler
invocation, after every start and header line is emitted, and the second
right after the handler returns, with at most the middleware's own
status-defaulting write in between and the end line emitted last. -/
theorem claim_C7 (reqID : String) (verbose : Bool)
    (hEff : WriterProxy → WriterProxy) (r : HttpRequest) (clock : Nat → Int)
    (hm : Monotone clock) :
    0 ≤ clock 1 - clock 0 ∧
    ∃ pre mid,
      (loggerHandlerRun reqID verbose hEff r clock).fst =
        pre ++ [Ev.clockRead 0, Ev.invoke] ++ mid ++
          [Ev.clockRead 1,
           Ev.log (printEnd reqID
             (loggerHandlerRun reqID verbose hEff r clock).snd.status
             (clock 1 - clock 0))] ∧
      (∀ e ∈ pre, ∃ l, e = Ev.log l) ∧
      (∀ e ∈ mid, ∃ c, e = Ev.writeHeader c) := by
  refine ⟨by simpa using Int.sub_nonneg.mpr (hm (by norm_num : 0 ≤ 1)), ?_⟩
  refine ⟨Ev.log (printStart reqID r) ::
    (if verbose then (printHeaders reqID r).map Ev.log else []),
    if (hEff { status := 0 }).status = 0 then [Ev.writeHeader 200] else [],
    ?_, ?_, ?_⟩
  · by_cases h : (hEff { status := 0 }).status = 0 <;>
      cases verbose <;>
        simp [loggerHandlerRun, h, List.append_assoc]
  · intro e he
    simp only [List.mem_cons] at he
    rcases he with he | he
    · exact ⟨printStart reqID r, he⟩
    · cases verbose with
      | false => exact absurd he (by simp)
      | true =>
        simp only [if_pos, List.mem_map] at he
        obtain ⟨l, _, hl⟩ := he
        exact ⟨l, hl.symm⟩
  · intro e he
    by_cases h : (hEff { status := 0 }).status = 0
    · rw [if_pos h] at he
      simp only [List.mem_singleton] at he
      exact ⟨200, he⟩
    · rw [if_neg h] at he
      exact absurd he (by simp)

/-- Claim C7 witness: under the concrete monotone clock that returns its
reading index, the reported duration of a concrete run is non-negative. -/
theorem claim_C7_witness :
    Monotone (fun i : Nat => (i : Int)) ∧
    0 ≤ ((fun i : Nat => (i : Int)) 1 - (fun i : Nat => (i : Int)) 0) :=
  ⟨fun a b hab => by show (a : Int) ≤ (b : Int); exact_mod_cast hab,
   (claim_C7 "abc123" true (fun w => w) sampleReq (fun i => (i : Int))
     (fun a b hab => by show (a : Int) ≤ (b : Int); exact_mod_cast hab)).1⟩

/-- Claim C8: the end line's duration segment carries the color of
exactly one of three latency buckets: the fast color below 500ms, the
moderate color from 500ms up to 5s, and the slow color at 5s or more —
with the three bucket colors pairwise distinct. -/
theorem claim_C8 (reqID : String) (status : Nat) (dt : Int) :
    (printEnd reqID status dt).getLast? =
      some (cW (durBucketColor dt) (durText dt)) ∧
    (dt < 500 * millisecond → durBucketColor dt = Color.nGreen) ∧
    (500 * millisecond ≤ dt → dt < 5 * second →
      durBucketColor dt = Color.nYellow) ∧
    (5 * second ≤ dt → durBucketColor dt = Color.nRed) ∧
    List.Pairwise (fun a b => a ≠ b)
      [Color.nGreen, Color.nYellow, Color.nRed] := by
  refine ⟨?_, ?_, ?_, ?_, by decide⟩
  · simp only [printEnd, bracketTag, endBody, durBucketColor]
    split_ifs <;> rfl
  · intro h1
    simp only [durBucketColor, millisecond, second] at h1 ⊢
    split_ifs <;> first | rfl | omega
  · intro h1 h2
    simp only [durBucketColor, millisecond, second] at h1 h2 ⊢
    split_ifs <;> first | rfl | omega
  · intro h1
    simp only [durBucketColor, millisecond, second] at h1 ⊢
    split_ifs <;> first | rfl | omega

/-- Claim C8 witness: 120ms falls in the fast bucket and 6s in the slow
bucket, at concrete inputs. -/
theorem claim_C8_witness :
    (120 * millisecond < 500 * millisecond ∧
      durBucketColor (120 * millisecond) = Color.nGreen) ∧
    (5 * second ≤ 6 * second ∧
      durBucketColor (6 * second) = Color.nRed) :=
  ⟨⟨by decide, (claim_C8 "abc123" 404 (120 * millisecond)).2.1 (by decide)⟩,
   ⟨by decide, (claim_C8 "abc123" 404 (6 * second)).2.2.2.1 (by decide)⟩⟩

/-- Claim C9: the start line is the optional bracket segment followed by
exactly `Started `, the method, the quoted URL, `from `, and the
originating address, in that order; its rendered body text therefore has
the shape `Started METHOD "URL" from ADDR`. -/
theorem claim_C9 (reqID : String) (r : HttpRequest) :
    printStart reqID r = bracketTag reqID ++
      [ws "Started ", cW Color.bMagenta (r.method ++ " "),
       cW Color.nBlue (goQuote r.url ++ " "), ws "from ",
       ws (if headerGet r.headers "X-Forwarded-For" ≠ "" then
         headerGet r.headers "X-Forwarded-For" else r.remoteAddr)] ∧
    lineText (startBody r) =
      "Started " ++ r.method ++ " " ++ goQuote r.url ++ " " ++ "from " ++
        (if headerGet r.headers "X-Forwarded-For" ≠ "" then
          headerGet r.headers "X-Forwarded-For" else r.remoteAddr) ∧
    ∃ mid, goQuote r.url = "\"" ++ mid ++ "\"" := by
  refine ⟨rfl, ?_, ⟨String.join (r.url.data.map escChar), rfl⟩⟩
  simp only [startBody, lineText, ws, cW, String.append_assoc,
    String.append_empty]

/-- Claim C10: when the inner handler explicitly set a non-zero status,
the middleware performs no status write of its own — the trace contains
no middleware `WriteHeader` event — and the handler's status reaches the
response sink unchanged. -/
theorem claim_C10 (reqID : String) (verbose : Bool)
    (hEff : WriterProxy → WriterProxy) (r : HttpRequest) (clock : Nat → Int)
    (S : Nat) (hS : (hEff { status := 0 }).status = S) (h0 : S ≠ 0) :
    (loggerHandlerRun reqID verbose hEff r clock).fst.filter isMwWrite = [] ∧
    (loggerHandlerRun reqID verbose hEff r clock).snd.status = S := by
  constructor
  · cases verbose <;>
      simp [loggerHandlerRun, hS, h0, isMwWrite, List.filter_append,
        List.filter_map, Function.comp, List.filter_eq_nil_iff]
  · simp [loggerHandlerRun, hS, h0]

/-- Claim C10 witness: with a handler that sets 404, a concrete run
contains no middleware status write and ends with status 404. -/
theorem claim_C10_witness :
    ((fun w : WriterProxy => w.writeHeader 404) { status := 0 }).status = 404 ∧
    (404 : Nat) ≠ 0 ∧
    (loggerHandlerRun "" false (fun w => w.writeHeader 404) sampleReq
      (fun _ => (0 : Int))).fst.filter isMwWrite = [] ∧
    (loggerHandlerRun "" false (fun w => w.writeHeader 404) sampleReq
      (fun _ => (0 : Int))).snd.status = 404 := by
  have h := claim_C10 "" false (fun w => w.writeHeader 404) sampleReq
    (fun _ => (0 : Int)) 404 (by decide) (by decide)
  exact ⟨by decide, by decide, h.1, h.2⟩

end GojiLogger
